import Mathlib

/-!
Shallow embedding of the sonnenbatterie-exporter collector (`src/main.go`).

The device client (`api.Sonnenbatterie`) is an external collaborator: it is
modelled as a record of fetch outcomes (each `Except String _`, mirroring the
Go `(value, error)` convention) plus the `HasToken` capability flag.  Channel
sends (`ch <- ...`) are modelled by appending to a result list, and each fetch
invocation is recorded in a call log so that "never calls endpoint X" is a
statable property.  Float64 values are modelled as exact rationals; integer
device fields are `Int` and the Go `float64(x)` casts become `Int → ℚ`
coercions.  Logging and the per-step 15s timeout context are side effects that
no claim quantifies over and are not modelled.
-/

namespace SonnenbatterieExporter

/-- Prometheus metric value types used by the program (`prometheus.GaugeValue`,
`prometheus.CounterValue`). -/
inductive ValueType where
  | GaugeValue
  | CounterValue
deriving DecidableEq, Repr

/-- A metric descriptor: `prometheus.NewDesc(name, help, variableLabels, nil)`.
The final `constLabels` argument is always `nil` in this program and is
omitted. -/
structure Desc where
  name : String
  help : String
  variableLabels : List String
deriving DecidableEq, Repr

/-- Model of `prometheus.NewDesc` with `constLabels = nil`. -/
def NewDesc (name help : String) (variableLabels : List String) : Desc :=
  ⟨name, help, variableLabels⟩

/-- An emitted sample: `prometheus.MustNewConstMetric(desc, valueType, value,
labelValues...)`. -/
structure Metric where
  desc : Desc
  valueType : ValueType
  value : ℚ
  labelValues : List String
deriving DecidableEq, Repr

/-- Model of `prometheus.MustNewConstMetric`: constructs a constant sample from a
descriptor, a value type, a value and the variadic label values. -/
def MustNewConstMetric (desc : Desc) (valueType : ValueType) (value : ℚ)
    (labelValues : List String) : Metric :=
  ⟨desc, valueType, value, labelValues⟩

/-- The record returned by the status endpoint (`api.GetStatus`).  `Uac` and
`Fac` are float64 fields used directly; the remaining fields are integral in
the device API (the program wraps each in a `float64(...)` cast). -/
structure Status where
  Uac : ℚ
  Fac : ℚ
  Rsoc : ℤ
  Usoc : ℤ
  ConsumptionW : ℤ
  ProductionW : ℤ
  RemainingCapacityWh : ℤ
deriving DecidableEq, Repr

/-- One power-meter sub-record (`api.GetPowerMeter` returns one for production
and one for consumption): per-phase voltages (phase-to-neutral and
phase-to-phase), per-phase powers, and a cumulative imported-energy counter,
all float64. -/
structure PowerMeterSection where
  VL1N : ℚ
  VL2N : ℚ
  VL3N : ℚ
  VL1L2 : ℚ
  VL2L3 : ℚ
  VL3L1 : ℚ
  WL1 : ℚ
  WL2 : ℚ
  WL3 : ℚ
  KwhImported : ℚ
deriving DecidableEq, Repr

/-- The charge-controller sub-record of the latest-data payload. -/
structure IcStatusRecord where
  SecondsSinceFullCharge : ℤ
deriving DecidableEq, Repr

/-- The record returned by the latest-data endpoint (`api.GetLatestData`). -/
structure LatestData where
  IcStatus : IcStatusRecord
  FullChargeCapacity : ℤ
deriving DecidableEq, Repr

/-- The device client, modelled by the outcome each of its three fetch
operations would produce during this scrape, plus the `HasToken` capability
flag.  `Except String` mirrors the Go `(value, error)` pair. -/
structure Sonnenbatterie where
  GetStatus : Except String Status
  GetPowerMeter : Except String (PowerMeterSection × PowerMeterSection)
  GetLatestData : Except String LatestData
  HasToken : Bool

/-- The three logical device endpoints; used to record which fetch operations
a scrape actually invoked. -/
inductive Endpoint where
  | status
  | powerMeter
  | latestData
deriving DecidableEq, Repr

/-- Result of (part of) a scrape: the samples sent on the channel, in order,
and the fetch invocations performed, in order. -/
structure ScrapeResult where
  samples : List Metric
  calls : List Endpoint
deriving DecidableEq, Repr

/-- The collector: the device client handle plus the eleven metric
descriptors. -/
structure collector where
  api : Sonnenbatterie
  gridVoltage : Desc
  gridFrequency : Desc
  chargePercent : Desc
  usableChargePercent : Desc
  consumptionPower : Desc
  consumptionEnergy : Desc
  productionPower : Desc
  productionEnergy : Desc
  lastFullyCharged : Desc
  fullChargeCapacity : Desc
  remaningChargeCapacity : Desc

/-- Constructor `newCollector`: builds the collector with its eleven descriptors, exactly
as in `src/main.go` lines 43-113. -/
def newCollector (api : Sonnenbatterie) : collector :=
  { api := api
    gridVoltage := NewDesc
      "solar_battery_grid_voltage"
      "Solar battery Grid (AC) voltage"
      ["phase"]
    gridFrequency := NewDesc
      "solar_battery_grid_frequency"
      "Solar battery Grid (AC) frequency in Hz"
      []
    chargePercent := NewDesc
      "solar_battery_charge_percent"
      "Solar battery charge in percent"
      []
    usableChargePercent := NewDesc
      "solar_battery_usable_charge_percent"
      "Solar battery usable charge in percent"
      []
    consumptionPower := NewDesc
      "solar_battery_consumption_power"
      "Solar battery consumption power in watts"
      ["phase"]
    consumptionEnergy := NewDesc
      "solar_battery_consumption_energy_total"
      "Total consumption measured in kwH"
      []
    productionPower := NewDesc
      "solar_battery_production_power"
      "Solar battery production power in watts"
      ["phase"]
    productionEnergy := NewDesc
      "solar_battery_production_energy_total"
      "Total production measured in kwH"
      []
    lastFullyCharged := NewDesc
      "solar_battery_last_fully_charged_unix_timestamp"
      "Timestamp of last full charge"
      []
    fullChargeCapacity := NewDesc
      "solar_battery_full_charge_capacity"
      "Full charge capacity in watt hours"
      []
    remaningChargeCapacity := NewDesc
      "solar_battery_remaining_charge_capacity"
      "Remaining charge capacity in watt hours"
      [] }

/-- Operation `Describe` (`src/main.go` lines 116-125): sends eight descriptors on the
describe channel — and only those eight. -/
def collector.Describe (c : collector) : List Desc :=
  [ c.gridVoltage
  , c.gridFrequency
  , c.chargePercent
  , c.usableChargePercent
  , c.consumptionPower
  , c.consumptionEnergy
  , c.productionPower
  , c.productionEnergy ]

/-- Step `collectStatus` (`src/main.go` lines 127-144): fetch the status endpoint;
on error log and emit nothing, on success emit the seven status-derived
samples. -/
def collector.collectStatus (c : collector) : ScrapeResult :=
  match c.api.GetStatus with
  | .error _ => ⟨[], [.status]⟩
  | .ok status =>
    ⟨[ MustNewConstMetric c.gridVoltage .GaugeValue status.Uac [""]
     , MustNewConstMetric c.gridFrequency .GaugeValue status.Fac []
     , MustNewConstMetric c.chargePercent .GaugeValue (status.Rsoc : ℚ) []
     , MustNewConstMetric c.usableChargePercent .GaugeValue (status.Usoc : ℚ) []
     , MustNewConstMetric c.consumptionPower .GaugeValue (status.ConsumptionW : ℚ) [""]
     , MustNewConstMetric c.productionPower .GaugeValue (status.ProductionW : ℚ) [""]
     , MustNewConstMetric c.remaningChargeCapacity .GaugeValue (status.RemainingCapacityWh : ℚ) []
     ], [.status]⟩

/-- Step `collectPowerMeter` (`src/main.go` lines 146-172): fetch the power-meter
endpoint; on error log and emit nothing, on success emit six voltage samples
(all from the consumption sub-record), three consumption-power samples, one
consumption-energy counter, three production-power samples and one
production-energy counter. -/
def collector.collectPowerMeter (c : collector) : ScrapeResult :=
  match c.api.GetPowerMeter with
  | .error _ => ⟨[], [.powerMeter]⟩
  | .ok (production, consumption) =>
    ⟨[ MustNewConstMetric c.gridVoltage .GaugeValue consumption.VL1N ["L1"]
     , MustNewConstMetric c.gridVoltage .GaugeValue consumption.VL2N ["L2"]
     , MustNewConstMetric c.gridVoltage .GaugeValue consumption.VL3N ["L3"]
     , MustNewConstMetric c.gridVoltage .GaugeValue consumption.VL1L2 ["L1-L2"]
     , MustNewConstMetric c.gridVoltage .GaugeValue consumption.VL2L3 ["L2-L3"]
     , MustNewConstMetric c.gridVoltage .GaugeValue consumption.VL3L1 ["L3-L1"]
     , MustNewConstMetric c.consumptionPower .GaugeValue consumption.WL1 ["L1"]
     , MustNewConstMetric c.consumptionPower .GaugeValue consumption.WL2 ["L2"]
     , MustNewConstMetric c.consumptionPower .GaugeValue consumption.WL3 ["L3"]
     , MustNewConstMetric c.consumptionEnergy .CounterValue consumption.KwhImported []
     , MustNewConstMetric c.productionPower .GaugeValue production.WL1 ["L1"]
     , MustNewConstMetric c.productionPower .GaugeValue production.WL2 ["L2"]
     , MustNewConstMetric c.productionPower .GaugeValue production.WL3 ["L3"]
     , MustNewConstMetric c.productionEnergy .CounterValue production.KwhImported []
     ], [.powerMeter]⟩

/-- Step `collectLatestData` (`src/main.go` lines 174-186): fetch the latest-data
endpoint; on error log and emit nothing, on success emit the last-fully-charged
timestamp, `float64(time.Now().UnixNano())/1e9 - float64(SecondsSinceFullCharge)`,
and the full-charge capacity.  `nowUnixNano` is the wall clock in nanoseconds
since the epoch at the moment of the `time.Now()` call. -/
def collector.collectLatestData (c : collector) (nowUnixNano : ℤ) : ScrapeResult :=
  match c.api.GetLatestData with
  | .error _ => ⟨[], [.latestData]⟩
  | .ok latestData =>
    ⟨[ MustNewConstMetric c.lastFullyCharged .GaugeValue
         ((nowUnixNano : ℚ) / 1000000000 - (latestData.IcStatus.SecondsSinceFullCharge : ℚ)) []
     , MustNewConstMetric c.fullChargeCapacity .GaugeValue
         (latestData.FullChargeCapacity : ℚ) []
     ], [.latestData]⟩

/-- Operation `Collect` (`src/main.go` lines 188-194): always run the status step; run
the power-meter and latest-data steps only when the client has a token.  The
function is total: no step outcome makes it propagate an error. -/
def collector.Collect (c : collector) (nowUnixNano : ℤ) : ScrapeResult :=
  let r1 := c.collectStatus
  if c.api.HasToken then
    let r2 := c.collectPowerMeter
    let r3 := c.collectLatestData nowUnixNano
    ⟨r1.samples ++ (r2.samples ++ r3.samples), r1.calls ++ (r2.calls ++ r3.calls)⟩
  else
    r1

/-! Concrete device payloads used to instantiate the theorems below. -/

/-- The example status payload of the spec's end-to-end scenario. -/
def statusEx : Status := ⟨230, 50, 80, 75, 500, 1200, 4000⟩

/-- A concrete production sub-record. -/
def productionEx : PowerMeterSection := ⟨1, 2, 3, 4, 5, 6, 71, 72, 73, 9⟩

/-- A concrete consumption sub-record. -/
def consumptionEx : PowerMeterSection := ⟨231, 232, 233, 401, 402, 403, 51, 52, 53, 14⟩

/-- A concrete latest-data payload with one hour since the last full charge. -/
def latestDataEx : LatestData := ⟨⟨3600⟩, 10000⟩

/-- A client with a token whose three fetches all succeed. -/
def apiAllOk : Sonnenbatterie :=
  ⟨.ok statusEx, .ok (productionEx, consumptionEx), .ok latestDataEx, true⟩

/-- A client without a token whose status fetch succeeds. -/
def apiNoToken : Sonnenbatterie :=
  ⟨.ok statusEx, .error "unauthorized", .error "unauthorized", false⟩

/-- A client with a token whose status fetch fails but whose other two fetches
succeed. -/
def apiStatusFails : Sonnenbatterie :=
  ⟨.error "connection refused", .ok (productionEx, consumptionEx), .ok latestDataEx, true⟩

/-- The collector built by `newCollector` holds the client it was given. -/
@[simp]
theorem newCollector_api (api : Sonnenbatterie) : (newCollector api).api = api := rfl

/-! Claim theorems. -/

/-- Claim C1: for every combination of fetch outcomes, a failure of one fetch
removes only that step's samples: `Collect` is the concatenation of the three
per-step sample lists (so the other steps' samples are still emitted, and the
total function `Collect` returns normally in every case); a failed step
contributes the empty list; and each step's sample list is a function of that
step's own fetch outcome alone. -/
theorem collect_step_failure_isolation (api : Sonnenbatterie) (nowUnixNano : ℤ) :
    ((newCollector api).Collect nowUnixNano).samples
      = ((newCollector api).collectStatus).samples
        ++ (if api.HasToken then ((newCollector api).collectPowerMeter).samples else [])
        ++ (if api.HasToken then ((newCollector api).collectLatestData nowUnixNano).samples else [])
    ∧ (∀ e, api.GetStatus = .error e → ((newCollector api).collectStatus).samples = [])
    ∧ (∀ e, api.GetPowerMeter = .error e → ((newCollector api).collectPowerMeter).samples = [])
    ∧ (∀ e, api.GetLatestData = .error e →
        ((newCollector api).collectLatestData nowUnixNano).samples = [])
    ∧ (∀ api2 : Sonnenbatterie, api2.GetStatus = api.GetStatus →
        ((newCollector api2).collectStatus).samples = ((newCollector api).collectStatus).samples)
    ∧ (∀ api2 : Sonnenbatterie, api2.GetPowerMeter = api.GetPowerMeter →
        ((newCollector api2).collectPowerMeter).samples
          = ((newCollector api).collectPowerMeter).samples)
    ∧ (∀ api2 : Sonnenbatterie, api2.GetLatestData = api.GetLatestData →
        ((newCollector api2).collectLatestData nowUnixNano).samples
          = ((newCollector api).collectLatestData nowUnixNano).samples) := by
  refine ⟨?_, ?_, ?_, ?_, ?_, ?_, ?_⟩
  · by_cases h : api.HasToken <;>
      simp [collector.Collect, h]
  · intro e he
    simp [collector.collectStatus, newCollector, he]
  · intro e he
    simp [collector.collectPowerMeter, newCollector, he]
  · intro e he
    simp [collector.collectLatestData, newCollector, he]
  · intro api2 h
    simp only [collector.collectStatus, newCollector, h]
  · intro api2 h
    simp only [collector.collectPowerMeter, newCollector, h]
  · intro api2 h
    simp only [collector.collectLatestData, newCollector, h]

/-- Witness for C1 at a concrete client whose status fetch fails while the
other two succeed: the status step contributes no samples, yet `Collect`
still emits the power-meter and latest-data samples (16 of them). -/
theorem collect_step_failure_isolation_witness :
    ((newCollector apiStatusFails).collectStatus).samples = []
    ∧ ((newCollector apiStatusFails).Collect 0).samples.length = 16 := by
  refine ⟨(collect_step_failure_isolation apiStatusFails 0).2.1 "connection refused" rfl, ?_⟩
  decide

/-- Claim C2: when the client has no token, `Collect` never invokes the
power-meter or latest-data fetch operations (only the status endpoint appears
in the call log), and it emits exactly 7 samples when the status fetch
succeeds and exactly 0 when it fails. -/
theorem collect_no_token (api : Sonnenbatterie) (nowUnixNano : ℤ)
    (hTok : api.HasToken = false) :
    ((newCollector api).Collect nowUnixNano).calls = [Endpoint.status]
    ∧ Endpoint.powerMeter ∉ ((newCollector api).Collect nowUnixNano).calls
    ∧ Endpoint.latestData ∉ ((newCollector api).Collect nowUnixNano).calls
    ∧ (∀ s, api.GetStatus = .ok s → ((newCollector api).Collect nowUnixNano).samples.length = 7)
    ∧ (∀ e, api.GetStatus = .error e →
        ((newCollector api).Collect nowUnixNano).samples.length = 0) := by
  have hcalls : ((newCollector api).Collect nowUnixNano).calls = [Endpoint.status] := by
    cases h : api.GetStatus <;>
      simp [collector.Collect, collector.collectStatus, newCollector, hTok, h]
  refine ⟨hcalls, by simp [hcalls], by simp [hcalls], ?_, ?_⟩
  · intro s hs
    simp [collector.Collect, collector.collectStatus, newCollector, hTok, hs]
  · intro e he
    simp [collector.Collect, collector.collectStatus, newCollector, hTok, he]

/-- Witness for C2 at the spec's end-to-end scenario: no token, status
succeeds; only the status endpoint is fetched and exactly 7 samples are
emitted. -/
theorem collect_no_token_witness :
    ((newCollector apiNoToken).Collect 0).calls = [Endpoint.status]
    ∧ ((newCollector apiNoToken).Collect 0).samples.length = 7 := by
  have h := collect_no_token apiNoToken 0 rfl
  exact ⟨h.1, h.2.2.2.1 statusEx rfl⟩

/-- Claim C3: when the client has a token and all three fetches succeed,
`Collect` emits exactly 23 samples: 7 from the status step, 14 from the
power-meter step and 2 from the latest-data step. -/
theorem collect_all_success_23 (api : Sonnenbatterie) (nowUnixNano : ℤ)
    (s : Status) (production consumption : PowerMeterSection) (ld : LatestData)
    (hTok : api.HasToken = true)
    (hs : api.GetStatus = .ok s)
    (hp : api.GetPowerMeter = .ok (production, consumption))
    (hl : api.GetLatestData = .ok ld) :
    ((newCollector api).collectStatus).samples.length = 7
    ∧ ((newCollector api).collectPowerMeter).samples.length = 14
    ∧ ((newCollector api).collectLatestData nowUnixNano).samples.length = 2
    ∧ ((newCollector api).Collect nowUnixNano).samples.length = 23 := by
  refine ⟨?_, ?_, ?_, ?_⟩
  · simp [collector.collectStatus, newCollector, hs]
  · simp [collector.collectPowerMeter, newCollector, hp]
  · simp [collector.collectLatestData, newCollector, hl]
  · simp [collector.Collect, collector.collectStatus, collector.collectPowerMeter,
      collector.collectLatestData, newCollector, hTok, hs, hp, hl]

/-- Witness for C3 at a concrete client with a token whose three fetches all
succeed. -/
theorem collect_all_success_23_witness :
    ((newCollector apiAllOk).Collect 0).samples.length = 23 :=
  (collect_all_success_23 apiAllOk 0 statusEx productionEx consumptionEx latestDataEx
    rfl rfl rfl rfl).2.2.2

/-- Counterexample to claim C4 as stated: `Describe` does NOT return exactly
the unconditionally exported (status-derived) descriptors.  At a concrete
tokenless client with a successful status fetch: the remaining-charge-capacity
descriptor is emitted by the status step (so it is unconditionally exported)
yet is absent from `Describe`, while the consumption-energy descriptor is in
`Describe` although it is exported only when the capability flag is set (it
appears in no sample of this tokenless scrape). -/
theorem describe_status_subset_counterexample :
    (newCollector apiNoToken).remaningChargeCapacity
        ∈ ((newCollector apiNoToken).collectStatus).samples.map Metric.desc
    ∧ (newCollector apiNoToken).remaningChargeCapacity ∉ (newCollector apiNoToken).Describe
    ∧ (newCollector apiNoToken).consumptionEnergy ∈ (newCollector apiNoToken).Describe
    ∧ (newCollector apiNoToken).consumptionEnergy
        ∉ ((newCollector apiNoToken).Collect 0).samples.map Metric.desc := by
  decide

/-- Claim C4, amended: `Describe` returns exactly the first eight descriptors
— grid voltage, grid frequency, charge percent, usable charge percent,
consumption power, consumption energy, production power, production energy —
thereby including the two capability-gated cumulative-energy descriptors and
omitting three descriptors, among them the unconditionally exported
remaining-charge-capacity one (as well as last-fully-charged and full-charge
capacity). -/
theorem describe_returns_first_eight (api : Sonnenbatterie) :
    ((newCollector api).Describe).map Desc.name
      = [ "solar_battery_grid_voltage"
        , "solar_battery_grid_frequency"
        , "solar_battery_charge_percent"
        , "solar_battery_usable_charge_percent"
        , "solar_battery_consumption_power"
        , "solar_battery_consumption_energy_total"
        , "solar_battery_production_power"
        , "solar_battery_production_energy_total" ]
    ∧ (newCollector api).consumptionEnergy ∈ (newCollector api).Describe
    ∧ (newCollector api).productionEnergy ∈ (newCollector api).Describe
    ∧ (newCollector api).remaningChargeCapacity ∉ (newCollector api).Describe
    ∧ (newCollector api).lastFullyCharged ∉ (newCollector api).Describe
    ∧ (newCollector api).fullChargeCapacity ∉ (newCollector api).Describe := by
  refine ⟨rfl, ?_, ?_, ?_, ?_, ?_⟩ <;>
    simp [collector.Describe, newCollector, NewDesc]

/-- Claim C5: on a successful status fetch, the three labeled status samples
(grid voltage, consumption power, production power) each carry the empty
string as their only phase label value, and no status sample carries "L1",
"L2" or "L3". -/
theorem status_samples_empty_phase_label (api : Sonnenbatterie) (s : Status)
    (hs : api.GetStatus = .ok s) :
    ((newCollector api).collectStatus).samples.map Metric.labelValues
      = [[""], [], [], [], [""], [""], []]
    ∧ (∀ m ∈ ((newCollector api).collectStatus).samples,
        (m.desc = (newCollector api).gridVoltage
            ∨ m.desc = (newCollector api).consumptionPower
            ∨ m.desc = (newCollector api).productionPower) →
          m.labelValues = [""])
    ∧ (∀ m ∈ ((newCollector api).collectStatus).samples, ∀ v ∈ m.labelValues,
        v ≠ "L1" ∧ v ≠ "L2" ∧ v ≠ "L3") := by
  refine ⟨?_, ?_, ?_⟩
  · simp [collector.collectStatus, newCollector, hs, MustNewConstMetric]
  · intro m hm hdesc
    simp only [collector.collectStatus, newCollector, hs, MustNewConstMetric,
      List.mem_cons, List.not_mem_nil, or_false] at hm
    rcases hm with h | h | h | h | h | h | h <;> subst h <;> first
      | rfl
      | simp [newCollector, NewDesc, MustNewConstMetric, Desc.mk.injEq] at hdesc
  · intro m hm v hv
    simp only [collector.collectStatus, newCollector, hs, MustNewConstMetric,
      List.mem_cons, List.not_mem_nil, or_false] at hm
    rcases hm with h | h | h | h | h | h | h <;> subst h <;>
      simp_all

/-- Witness for C5 at the spec's example status payload. -/
theorem status_samples_empty_phase_label_witness :
    ((newCollector apiNoToken).collectStatus).samples.map Metric.labelValues
      = [[""], [], [], [], [""], [""], []] :=
  (status_samples_empty_phase_label apiNoToken statusEx rfl).1

/-- Claim C6: on a successful latest-data fetch the emitted last-fully-charged
value is the wall clock in seconds since the epoch minus the device's
seconds-since-full-charge (the second emitted sample is the full-charge
capacity verbatim). -/
theorem last_fully_charged_value (api : Sonnenbatterie) (ld : LatestData)
    (nowUnixNano : ℤ) (hl : api.GetLatestData = .ok ld) :
    ((newCollector api).collectLatestData nowUnixNano).samples.map Metric.value
      = [ (nowUnixNano : ℚ) / 1000000000 - (ld.IcStatus.SecondsSinceFullCharge : ℚ)
        , (ld.FullChargeCapacity : ℚ) ] := by
  simp [collector.collectLatestData, newCollector, hl, MustNewConstMetric]

/-- Witness for C6 with the spec's fixed fake clock: 1,700,000,000 s
(1,700,000,000,000,000,000 ns) and 3600 seconds since full charge give an
emitted timestamp of 1,699,996,400. -/
theorem last_fully_charged_value_witness :
    ((newCollector apiAllOk).collectLatestData 1700000000000000000).samples.map Metric.value
      = [(1699996400 : ℚ), (10000 : ℚ)] := by
  rw [last_fully_charged_value apiAllOk latestDataEx 1700000000000000000 rfl]
  norm_num [latestDataEx]

/-- Claim C7: on a successful power-meter fetch the step emits exactly 14
samples: 6 grid-voltage samples labeled L1, L2, L3, L1-L2, L2-L3, L3-L1;
3 consumption-power samples labeled L1, L2, L3; 1 cumulative
consumption-energy sample; 3 production-power samples labeled L1, L2, L3;
and 1 cumulative production-energy sample. -/
theorem power_meter_fourteen_samples (api : Sonnenbatterie)
    (production consumption : PowerMeterSection)
    (hp : api.GetPowerMeter = .ok (production, consumption)) :
    ((newCollector api).collectPowerMeter).samples.length = 14
    ∧ ((newCollector api).collectPowerMeter).samples.map
        (fun m => (m.desc.name, m.labelValues))
      = [ ("solar_battery_grid_voltage", ["L1"])
        , ("solar_battery_grid_voltage", ["L2"])
        , ("solar_battery_grid_voltage", ["L3"])
        , ("solar_battery_grid_voltage", ["L1-L2"])
        , ("solar_battery_grid_voltage", ["L2-L3"])
        , ("solar_battery_grid_voltage", ["L3-L1"])
        , ("solar_battery_consumption_power", ["L1"])
        , ("solar_battery_consumption_power", ["L2"])
        , ("solar_battery_consumption_power", ["L3"])
        , ("solar_battery_consumption_energy_total", [])
        , ("solar_battery_production_power", ["L1"])
        , ("solar_battery_production_power", ["L2"])
        , ("solar_battery_production_power", ["L3"])
        , ("solar_battery_production_energy_total", []) ] := by
  constructor <;>
    simp [collector.collectPowerMeter, newCollector, hp, MustNewConstMetric, NewDesc]

/-- Witness for C7 at a concrete successful power-meter fetch. -/
theorem power_meter_fourteen_samples_witness :
    ((newCollector apiAllOk).collectPowerMeter).samples.length = 14 :=
  (power_meter_fourteen_samples apiAllOk productionEx consumptionEx rfl).1

/-- Every sample of `Collect` comes from one of the three steps. -/
theorem mem_collect (api : Sonnenbatterie) (nowUnixNano : ℤ) (m : Metric)
    (hm : m ∈ ((newCollector api).Collect nowUnixNano).samples) :
    m ∈ ((newCollector api).collectStatus).samples
    ∨ m ∈ ((newCollector api).collectPowerMeter).samples
    ∨ m ∈ ((newCollector api).collectLatestData nowUnixNano).samples := by
  by_cases ht : api.HasToken <;> simp [collector.Collect, ht] at hm <;> tauto

/-- Shape of every status-step sample: label arity matches the descriptor, the
value type is gauge, and the descriptor is not one of the two energy
counters. -/
theorem shape_of_mem_status (api : Sonnenbatterie) (m : Metric)
    (hm : m ∈ ((newCollector api).collectStatus).samples) :
    m.labelValues.length = m.desc.variableLabels.length
    ∧ m.valueType = ValueType.GaugeValue
    ∧ m.desc.name ≠ "solar_battery_consumption_energy_total"
    ∧ m.desc.name ≠ "solar_battery_production_energy_total" := by
  cases hs : api.GetStatus with
  | error e => simp [collector.collectStatus, newCollector, hs] at hm
  | ok s =>
    simp [collector.collectStatus, newCollector, hs, MustNewConstMetric] at hm
    rcases hm with rfl | rfl | rfl | rfl | rfl | rfl | rfl <;> simp [NewDesc]

/-- Shape of every power-meter-step sample: label arity matches the
descriptor, and the value type is counter exactly for the two energy
descriptors. -/
theorem shape_of_mem_powerMeter (api : Sonnenbatterie) (m : Metric)
    (hm : m ∈ ((newCollector api).collectPowerMeter).samples) :
    m.labelValues.length = m.desc.variableLabels.length
    ∧ (m.valueType = ValueType.CounterValue ↔
        (m.desc.name = "solar_battery_consumption_energy_total"
          ∨ m.desc.name = "solar_battery_production_energy_total")) := by
  cases hp : api.GetPowerMeter with
  | error e => simp [collector.collectPowerMeter, newCollector, hp] at hm
  | ok pc =>
    obtain ⟨production, consumption⟩ := pc
    simp [collector.collectPowerMeter, newCollector, hp, MustNewConstMetric] at hm
    rcases hm with rfl | rfl | rfl | rfl | rfl | rfl | rfl | rfl | rfl | rfl | rfl | rfl | rfl | rfl <;>
      simp [NewDesc]

/-- Shape of every latest-data-step sample: label arity matches the
descriptor, the value type is gauge, and the descriptor is not one of the two
energy counters. -/
theorem shape_of_mem_latestData (api : Sonnenbatterie) (nowUnixNano : ℤ) (m : Metric)
    (hm : m ∈ ((newCollector api).collectLatestData nowUnixNano).samples) :
    m.labelValues.length = m.desc.variableLabels.length
    ∧ m.valueType = ValueType.GaugeValue
    ∧ m.desc.name ≠ "solar_battery_consumption_energy_total"
    ∧ m.desc.name ≠ "solar_battery_production_energy_total" := by
  cases hl : api.GetLatestData with
  | error e => simp [collector.collectLatestData, newCollector, hl] at hm
  | ok ld =>
    simp [collector.collectLatestData, newCollector, hl, MustNewConstMetric] at hm
    rcases hm with rfl | rfl <;> simp [NewDesc]

/-- Claim C8: an emitted sample has counter type exactly when its descriptor
is one of the two cumulative-energy metrics; every sample of the other nine
metrics is a gauge. -/
theorem energy_counters_others_gauges (api : Sonnenbatterie) (nowUnixNano : ℤ) :
    ∀ m ∈ ((newCollector api).Collect nowUnixNano).samples,
      (m.valueType = ValueType.CounterValue ↔
        (m.desc.name = "solar_battery_consumption_energy_total"
          ∨ m.desc.name = "solar_battery_production_energy_total")) := by
  intro m hm
  rcases mem_collect api nowUnixNano m hm with h | h | h
  · obtain ⟨-, hg, h1, h2⟩ := shape_of_mem_status api m h
    simp [hg, h1, h2]
  · exact (shape_of_mem_powerMeter api m h).2
  · obtain ⟨-, hg, h1, h2⟩ := shape_of_mem_latestData api nowUnixNano m h
    simp [hg, h1, h2]

/-- The consumption-energy sample emitted for the concrete all-success
client. -/
def consumptionEnergySampleEx : Metric :=
  MustNewConstMetric
    (NewDesc "solar_battery_consumption_energy_total" "Total consumption measured in kwH" [])
    .CounterValue 14 []

/-- Witness for C8: the concrete consumption-energy sample is among the
samples of an all-success scrape and satisfies the counter/gauge
characterisation. -/
theorem energy_counters_others_gauges_witness :
    consumptionEnergySampleEx.valueType = ValueType.CounterValue ↔
      (consumptionEnergySampleEx.desc.name = "solar_battery_consumption_energy_total"
        ∨ consumptionEnergySampleEx.desc.name = "solar_battery_production_energy_total") :=
  energy_counters_others_gauges apiAllOk 0 consumptionEnergySampleEx (by decide)

/-- Claim C9: every emitted sample carries exactly as many label values as its
descriptor declares label names. -/
theorem label_arity_invariant (api : Sonnenbatterie) (nowUnixNano : ℤ) :
    ∀ m ∈ ((newCollector api).Collect nowUnixNano).samples,
      m.labelValues.length = m.desc.variableLabels.length := by
  intro m hm
  rcases mem_collect api nowUnixNano m hm with h | h | h
  · exact (shape_of_mem_status api m h).1
  · exact (shape_of_mem_powerMeter api m h).1
  · exact (shape_of_mem_latestData api nowUnixNano m h).1

/-- The grid-voltage L1 sample emitted for the concrete all-success client. -/
def gridVoltageL1SampleEx : Metric :=
  MustNewConstMetric
    (NewDesc "solar_battery_grid_voltage" "Solar battery Grid (AC) voltage" ["phase"])
    .GaugeValue 231 ["L1"]

/-- Witness for C9: the concrete grid-voltage L1 sample is among the samples
of an all-success scrape and its one label value matches the descriptor's one
label name. -/
theorem label_arity_invariant_witness :
    gridVoltageL1SampleEx.labelValues.length
      = gridVoltageL1SampleEx.desc.variableLabels.length :=
  label_arity_invariant apiAllOk 0 gridVoltageL1SampleEx (by decide)

/-- Claim C10: on a successful power-meter fetch all six grid-voltage samples
take their values from the consumption sub-record, and the per-phase voltage
fields of the production sub-record are never emitted by any operation:
changing them (keeping the production powers and energy fixed) leaves the
entire `Collect` output unchanged. -/
theorem voltage_from_consumption_only (api : Sonnenbatterie)
    (production consumption : PowerMeterSection)
    (hp : api.GetPowerMeter = .ok (production, consumption)) :
    (((newCollector api).collectPowerMeter).samples.filter
        (fun m => m.desc.name == "solar_battery_grid_voltage")).map Metric.value
      = [ consumption.VL1N, consumption.VL2N, consumption.VL3N
        , consumption.VL1L2, consumption.VL2L3, consumption.VL3L1 ]
    ∧ ∀ (api2 : Sonnenbatterie) (production2 : PowerMeterSection) (nowUnixNano : ℤ),
        api2.GetStatus = api.GetStatus →
        api2.GetLatestData = api.GetLatestData →
        api2.HasToken = api.HasToken →
        api2.GetPowerMeter = .ok (production2, consumption) →
        production2.WL1 = production.WL1 →
        production2.WL2 = production.WL2 →
        production2.WL3 = production.WL3 →
        production2.KwhImported = production.KwhImported →
        ((newCollector api2).Collect nowUnixNano).samples
          = ((newCollector api).Collect nowUnixNano).samples := by
  constructor
  · simp [collector.collectPowerMeter, newCollector, hp, MustNewConstMetric, NewDesc,
      List.filter]
  · intro api2 production2 nowUnixNano h1 h2 h3 hp2 e1 e2 e3 e4
    simp [collector.Collect, collector.collectStatus, collector.collectPowerMeter,
      collector.collectLatestData, newCollector, h1, h2, h3, hp, hp2, e1, e2, e3, e4]

/-- Witness for C10: at the concrete all-success client the six grid-voltage
values are exactly the consumption sub-record's six voltage fields. -/
theorem voltage_from_consumption_only_witness :
    (((newCollector apiAllOk).collectPowerMeter).samples.filter
        (fun m => m.desc.name == "solar_battery_grid_voltage")).map Metric.value
      = [231, 232, 233, 401, 402, 403] :=
  (voltage_from_consumption_only apiAllOk productionEx consumptionEx rfl).1

end SonnenbatterieExporter
